import Mathlib

/-!
Verification of the PQC-Edge-Attestor core against its specification.

This file shallowly embeds the relevant parts of the C sources
(src/crypto/cryptoHash.c, src/crypto/pqc_common.c, src/crypto/kyber.c,
src/crypto/dilithium.c, src/attestation/tmp2_interface.c,
src/attestation/attestation_engine.c) as executable Lean definitions,
and proves or refutes the specification claims about them.

Machine integers are modelled as Nat with explicit reduction modulo 2^w
at the points where the C code's fixed-width arithmetic matters.
Byte buffers are lists of Nat (each entry the value of one byte).
Nullable C pointers are modelled as Option; out-parameters become
components of the returned value.
-/

namespace PQCAttestor

/-! ## Result codes (from src/crypto/pqc_common.h and attestation_engine.h) -/

/-- Result codes of the PQC library, from pqc_common.h. -/
inductive pqc_result where
  | PQC_SUCCESS
  | PQC_ERROR_INVALID_PARAMETER
  | PQC_ERROR_INSUFFICIENT_MEMORY
  | PQC_ERROR_RANDOM_GENERATION
  | PQC_ERROR_INVALID_SIGNATURE
  | PQC_ERROR_INVALID_CIPHERTEXT
  | PQC_ERROR_INVALID_KEY
  | PQC_ERROR_HARDWARE_FAILURE
  | PQC_ERROR_NOT_IMPLEMENTED
  | PQC_ERROR_INTERNAL
  deriving DecidableEq, Repr

/-- Attestation error codes, from attestation_engine.h. -/
inductive attestation_error where
  | ATTESTATION_ERROR_NONE
  | ATTESTATION_ERROR_INVALID_FORMAT
  | ATTESTATION_ERROR_SIGNATURE_INVALID
  | ATTESTATION_ERROR_TIMESTAMP_INVALID
  | ATTESTATION_ERROR_INVALID_PCR
  | ATTESTATION_ERROR_INVALID_MEASUREMENT
  | ATTESTATION_ERROR_POLICY_VIOLATION
  | ATTESTATION_ERROR_EXPIRED
  | ATTESTATION_ERROR_REVOKED
  | ATTESTATION_ERROR_UNKNOWN_DEVICE
  deriving DecidableEq, Repr

/-! ## Keccak and SHA-3, embedded from src/crypto/cryptoHash.c

The Keccak state is a list of 25 lanes, each a 64-bit value
(a Nat kept below 2^64 by masking exactly where the C does).
The state-byte view used by the sponge identifies byte `i` of the state
with byte `i % 8` of lane `i / 8`, as on the little-endian targets the
code addresses through its `(uint8_t *)ctx->state` cast. -/

/-- Mask of 64 one bits. -/
def mask64 : Nat := 2 ^ 64 - 1

/-- `rol64` from cryptoHash.c: rotate a 64-bit lane left by `n`.
For `n = 0` the C shifts by 64, which yields the identity on the
targets in question; `Nat.shiftRight` by 64 gives the same value. -/
def rol64 (x n : Nat) : Nat := ((x <<< n) ||| (x >>> (64 - n))) &&& mask64

/-- The 24 round constants `keccak_round_constants` from cryptoHash.c. -/
def keccak_round_constants : List Nat :=
  [0x0000000000000001, 0x0000000000008082, 0x800000000000808a,
   0x8000000080008000, 0x000000000000808b, 0x0000000080000001,
   0x8000000080008081, 0x8000000000008009, 0x000000000000008a,
   0x0000000000000088, 0x0000000080008009, 0x000000008000000a,
   0x000000008000808b, 0x800000000000008b, 0x8000000000008089,
   0x8000000000008003, 0x8000000000008002, 0x8000000000000080,
   0x000000000000800a, 0x800000008000000a, 0x8000000080008081,
   0x8000000000008080, 0x0000000080000001, 0x8000000080008008]

/-- The rotation-offset table `keccak_rho_offsets` from cryptoHash.c. -/
def keccak_rho_offsets : List Nat :=
  [0, 1, 62, 28, 27] ++ [36, 44, 6, 55, 20] ++ [3, 10, 43, 25, 39] ++
    [41, 45, 15, 21, 8] ++ [18, 2, 61, 56, 14]

/-- The `pi_indices` table from cryptoHash.c (the destination index the
code assigns lane `i` to in its combined rho-and-pi step).  Note that
this table is the INVERSE of the FIPS 202 pi destination map
`i = x + 5*y  ->  y + 5*((2*x + 3*y) mod 5)`. -/
def pi_indices : List Nat :=
  [0, 6, 12, 18, 24, 3, 9, 10, 16, 22, 1, 7, 13, 19, 20,
   4, 5, 11, 17, 23, 2, 8, 14, 15, 21]

/-- Read lane `i` of a Keccak state (0 when out of range, which the
in-range code never hits). -/
def lane (st : List Nat) (i : Nat) : Nat := st.getD i 0

/-- Theta step of `keccak_f1600` in cryptoHash.c: column parities `C`,
differences `D`, and the xor of `D[x]` into every lane of column `x`. -/
def thetaStep (st : List Nat) : List Nat :=
  let C := (List.range 5).map fun x =>
    lane st x ^^^ lane st (x + 5) ^^^ lane st (x + 10) ^^^
      lane st (x + 15) ^^^ lane st (x + 20)
  let D := (List.range 5).map fun x =>
    C.getD ((x + 4) % 5) 0 ^^^ rol64 (C.getD ((x + 1) % 5) 0) 1
  (List.range 25).map fun i => lane st i ^^^ D.getD (i % 5) 0

/-- Combined rho-and-pi step of `keccak_f1600` in cryptoHash.c:
`B[pi_indices[i]] = rol64(state[i], keccak_rho_offsets[i])`.
The C leaves `B` uninitialized before the loop; since `pi_indices`
is a permutation of `0..24` every entry is written, so starting from
a zero list is equivalent. -/
def rhoPiStep (st : List Nat) : List Nat :=
  (List.range 25).foldl
    (fun B i => B.set (pi_indices.getD i 0) (rol64 (lane st i) (keccak_rho_offsets.getD i 0)))
    (List.replicate 25 0)

/-- Chi step of `keccak_f1600` in cryptoHash.c:
`state[x+5y] = B[x+5y] ^ ((~B[(x+1)%5+5y]) & B[(x+2)%5+5y])`,
with the C bitwise complement restricted to 64 bits. -/
def chiStep (B : List Nat) : List Nat :=
  (List.range 25).map fun i =>
    let x := i % 5
    let y := i / 5
    lane B i ^^^ ((mask64 ^^^ lane B ((x + 1) % 5 + 5 * y)) &&& lane B ((x + 2) % 5 + 5 * y))

/-- One round of `keccak_f1600` from cryptoHash.c: theta, rho-pi, chi,
then iota (xor of the round constant into lane 0). -/
def keccakRound (st : List Nat) (rc : Nat) : List Nat :=
  let st1 := thetaStep st
  let B := rhoPiStep st1
  let st2 := chiStep B
  st2.set 0 (lane st2 0 ^^^ rc)

/-- `keccak_f1600` from cryptoHash.c: 24 rounds over the constants. -/
def keccak_f1600 (st : List Nat) : List Nat :=
  keccak_round_constants.foldl keccakRound st

/-- Xor one byte into the state-byte view at position `pos`
(byte `pos % 8` of lane `pos / 8`). -/
def xorByteAt (st : List Nat) (pos b : Nat) : List Nat :=
  st.set (pos / 8) (lane st (pos / 8) ^^^ ((b &&& 255) <<< (8 * (pos % 8))))

/-- `keccak_update` from cryptoHash.c, expressed byte-at-a-time: xor each
input byte at the cursor, permute and reset whenever the cursor reaches
the rate.  The C processes input in chunks bounded by `rate - pos` and
permutes exactly when the cursor reaches the rate, which is the same
byte-level behaviour. -/
def keccak_update (rate : Nat) (acc : List Nat × Nat) (input : List Nat) : List Nat × Nat :=
  input.foldl
    (fun acc b =>
      let st := xorByteAt acc.1 acc.2 b
      if acc.2 + 1 = rate then (keccak_f1600 st, 0) else (st, acc.2 + 1))
    acc

/-- Extract the first `n` bytes of the state-byte view. -/
def extractBytes (st : List Nat) (n : Nat) : List Nat :=
  (List.range n).map fun i => (lane st (i / 8) >>> (8 * (i % 8))) &&& 255

/-- Output loop of `keccak_final`: emit `rate` bytes per block and
permute between blocks.  The C while-loop runs `chunk = min rate
remaining` per iteration and permutes only while output remains; the
fuel argument (instantiated with the total output length, an upper
bound on the number of blocks since each block emits at least one byte
for the rates used here) makes the recursion structural. -/
def keccakSqueeze (rate : Nat) : Nat → List Nat → Nat → List Nat
  | 0, st, remaining => extractBytes st remaining
  | fuel + 1, st, remaining =>
    if remaining ≤ rate then extractBytes st remaining
    else extractBytes st rate ++ keccakSqueeze rate fuel (keccak_f1600 st) (remaining - rate)

/-- `keccak_final` from cryptoHash.c: xor the domain-separation suffix at
the cursor, xor 0x80 into byte `rate - 1`, permute, then squeeze. -/
def keccak_final (rate suffix : Nat) (acc : List Nat × Nat) (outlen : Nat) : List Nat :=
  let st := xorByteAt acc.1 acc.2 suffix
  let st := xorByteAt st (rate - 1) 0x80
  keccakSqueeze rate outlen (keccak_f1600 st) outlen

/-- The all-zero Keccak state set up by `keccak_init`. -/
def zeroKeccakState : List Nat := List.replicate 25 0

/-- KECCAK_RATE_SHA3_256 from cryptoHash.c. -/
def KECCAK_RATE_SHA3_256 : Nat := 136

/-- Digest computation of `sha3_256_enhanced` from cryptoHash.c on
non-null arguments: init with rate 136 and suffix 0x06, absorb the
input, finalize to 32 bytes. -/
def sha3_256_digest (input : List Nat) : List Nat :=
  keccak_final KECCAK_RATE_SHA3_256 0x06
    (keccak_update KECCAK_RATE_SHA3_256 (zeroKeccakState, 0) input) 32

/-- `sha3_256_enhanced` from cryptoHash.c with its null-pointer guard:
the hash out-buffer and the input are nullable; on a null argument the
function returns the invalid-parameter code and the out-buffer keeps
its previous contents. -/
def sha3_256_enhanced (hash : Option (List Nat)) (input : Option (List Nat)) :
    pqc_result × Option (List Nat) :=
  match hash, input with
  | some _, some inp => (.PQC_SUCCESS, some (sha3_256_digest inp))
  | _, _ => (.PQC_ERROR_INVALID_PARAMETER, hash)

/-- `sha3_256` from cryptoHash.c, a direct wrapper of `sha3_256_enhanced`. -/
def sha3_256 (hash : Option (List Nat)) (input : Option (List Nat)) :
    pqc_result × Option (List Nat) :=
  sha3_256_enhanced hash input

/-- The Generation-1 `sha3_256` from src/crypto/pqc_common.c on non-null
arguments: a 32-byte accumulator starting at zero into which input byte
`i` is xor-folded at position `i % 32`.  (It is not SHA-3 at all.) -/
def sha3_256_gen1_digest (input : List Nat) : List Nat :=
  input.foldl
    (fun acc b =>
      let i := acc.2
      (acc.1.set (i % 32) (acc.1.getD (i % 32) 0 ^^^ (b &&& 255)), i + 1))
    ((List.replicate 32 0 : List Nat), 0)
  |>.1

/-- The SHA3-256 test vector for the ASCII input "abc" required by the
specification (and by the repository's own `hash_self_test`). -/
def sha3AbcExpected : List Nat :=
  [0x3a, 0x98, 0x5d, 0xa7, 0x4f, 0xe2, 0x25, 0xb2,
   0x04, 0x5c, 0x17, 0x2d, 0x6b, 0xd3, 0x90, 0xbd,
   0x85, 0x5f, 0x08, 0x6e, 0x3e, 0x9d, 0x52, 0x5b,
   0x46, 0xbf, 0xe2, 0x45, 0x11, 0x43, 0x15, 0x32]

/-- The digest the code's `sha3_256` actually produces for "abc"
(computed from the embedding; the inverted `pi_indices` table makes the
permutation differ from Keccak-f[1600]). -/
def sha3AbcActual : List Nat :=
  [0x35, 0x46, 0x66, 0x80, 0x32, 0xae, 0x0f, 0xda,
   0xc6, 0xf4, 0x9f, 0xd5, 0x71, 0x15, 0x26, 0xb7,
   0xc4, 0xf5, 0xb4, 0x4c, 0x36, 0xfd, 0xde, 0x16,
   0x76, 0xa6, 0x46, 0xa1, 0xe7, 0x2d, 0x63, 0x42]

/-- The ASCII bytes of "abc". -/
def abcBytes : List Nat := [0x61, 0x62, 0x63]

set_option maxRecDepth 100000 in
/-- Supporting computation: the embedded `sha3_256_digest` on "abc"
evaluates to the digest recorded in `sha3AbcActual`. -/
theorem sha3_256_digest_abc_value : sha3_256_digest abcBytes = sha3AbcActual := by
  decide

set_option maxRecDepth 100000 in
/-- C3: the claim that `sha3_256` applied to the 3-byte ASCII input "abc"
writes exactly the 32 bytes
3a985da74fe225b2045c172d6bd390bd855f086e3e9d525b46bfe24511431532 is
FALSE for both implementations named by the claim: the enhanced
implementation in cryptoHash.c produces the bytes of `sha3AbcActual`
(its combined rho-pi step uses the inverse of the FIPS 202 pi
destination map, so its permutation is not Keccak-f[1600]), and the
Generation-1 implementation in pqc_common.c produces the xor-fold
[0x61, 0x62, 0x63, 0, ..., 0].  Both differ from the required vector,
which the repository's own `hash_self_test` also demands. -/
theorem sha3_256_abc_mismatch :
    (sha3_256 (some (List.replicate 32 0)) (some abcBytes)).2 = some sha3AbcActual ∧
    sha3AbcActual ≠ sha3AbcExpected ∧
    sha3_256_gen1_digest abcBytes ≠ sha3AbcExpected := by
  refine ⟨?_, by decide, by decide⟩
  show (pqc_result.PQC_SUCCESS, some (sha3_256_digest abcBytes)).2 = some sha3AbcActual
  rw [sha3_256_digest_abc_value]

/-! ## Simulated TPM PCR bank, embedded from src/attestation/tmp2_interface.c

The file's static `tpm_state` struct (referred to interchangeably as
`tmp_state` in the source) holds the initialization flag, eight 32-byte
PCR registers, per-register allocation flags, and per-register
`uint32_t` extend counters. -/

/-- MAX_PCR_REGISTERS from attestation_engine.h. -/
def MAX_PCR_REGISTERS : Nat := 8

/-- The simulated TPM state from tmp2_interface.c. -/
structure TpmState where
  initialized : Bool
  pcr_values : List (List Nat)
  pcr_allocated : List Bool
  extend_count : List Nat
  deriving DecidableEq, Repr

/-- `tpm2_init` from tmp2_interface.c: a no-op when already
initialized, otherwise all PCRs are zeroed, marked allocated, counters
reset, and the flag set.  It always returns PQC_SUCCESS. -/
def tpm2_init (st : TpmState) : TpmState :=
  if st.initialized then st
  else
    { initialized := true
      pcr_values := List.replicate MAX_PCR_REGISTERS (List.replicate 32 0)
      pcr_allocated := List.replicate MAX_PCR_REGISTERS true
      extend_count := List.replicate MAX_PCR_REGISTERS 0 }

/-- `tpm2_read_pcr` from tmp2_interface.c. -/
def tpm2_read_pcr (pcr_index : Nat) (out_nonnull : Bool) (st : TpmState) :
    pqc_result × Option (List Nat) :=
  if st.initialized = false then (.PQC_ERROR_HARDWARE_FAILURE, none)
  else if MAX_PCR_REGISTERS ≤ pcr_index then (.PQC_ERROR_INVALID_PARAMETER, none)
  else if st.pcr_allocated.getD pcr_index false = false then (.PQC_ERROR_HARDWARE_FAILURE, none)
  else if out_nonnull = false then (.PQC_ERROR_INVALID_PARAMETER, none)
  else (.PQC_SUCCESS, some (st.pcr_values.getD pcr_index []))

/-- `tmp2_extend_pcr` from tmp2_interface.c: after the guards, the new
register value is `sha3_256` of the 64-byte buffer holding the current
32 register bytes followed by the 32 measurement bytes, and the
`uint32_t` extend counter is incremented (wrapping modulo 2^32). -/
def tmp2_extend_pcr (pcr_index : Nat) (measurement : Option (List Nat)) (st : TpmState) :
    pqc_result × TpmState :=
  if st.initialized = false then (.PQC_ERROR_HARDWARE_FAILURE, st)
  else if MAX_PCR_REGISTERS ≤ pcr_index then (.PQC_ERROR_INVALID_PARAMETER, st)
  else if st.pcr_allocated.getD pcr_index false = false then (.PQC_ERROR_HARDWARE_FAILURE, st)
  else
    match measurement with
    | none => (.PQC_ERROR_INVALID_PARAMETER, st)
    | some m =>
      let extend_data := (st.pcr_values.getD pcr_index []).take 32 ++ m.take 32
      let new_pcr := sha3_256_digest extend_data
      (.PQC_SUCCESS,
        { st with
          pcr_values := st.pcr_values.set pcr_index new_pcr
          extend_count :=
            st.extend_count.set pcr_index ((st.extend_count.getD pcr_index 0 + 1) % 2 ^ 32) })

/-- A concrete TPM state whose PCR-0 extend counter sits at the
`uint32_t` maximum. -/
def tpmStateAtCounterMax : TpmState :=
  { initialized := true
    pcr_values := List.replicate 8 (List.replicate 32 0)
    pcr_allocated := List.replicate 8 true
    extend_count := (2 ^ 32 - 1) :: List.replicate 7 0 }

/-- C4 counterexample: the claim that a successful extend increments the
extend counter by exactly 1 fails at a state whose counter holds the
`uint32_t` maximum 2^32 - 1: the extend succeeds, but the counter wraps
to 0 rather than becoming 2^32. -/
theorem tmp2_extend_pcr_counter_wrap :
    (tmp2_extend_pcr 0 (some (List.replicate 32 0)) tpmStateAtCounterMax).1 = .PQC_SUCCESS ∧
    (tmp2_extend_pcr 0 (some (List.replicate 32 0)) tpmStateAtCounterMax).2.extend_count.getD 0 0
      = 0 ∧
    tpmStateAtCounterMax.extend_count.getD 0 0 + 1 = 2 ^ 32 := by
  refine ⟨rfl, ?_, by decide⟩
  show ((tpmStateAtCounterMax.extend_count.set 0
      ((tpmStateAtCounterMax.extend_count.getD 0 0 + 1) % 2 ^ 32)).getD 0 0) = 0
  decide

/-- Evaluation of `tmp2_extend_pcr` on the success path: with the TPM
initialized, the index in range and the register allocated, the call
returns success and performs exactly the two writes of the C body. -/
theorem tmp2_extend_pcr_success_eq (st : TpmState) (i : Nat) (m : List Nat)
    (hinit : st.initialized = true) (hlt : i < 8)
    (halloc : st.pcr_allocated.getD i false = true) :
    tmp2_extend_pcr i (some m) st =
      (.PQC_SUCCESS,
        { st with
          pcr_values := st.pcr_values.set i
            (sha3_256_digest ((st.pcr_values.getD i []).take 32 ++ m.take 32))
          extend_count := st.extend_count.set i ((st.extend_count.getD i 0 + 1) % 2 ^ 32) }) := by
  unfold tmp2_extend_pcr
  rw [if_neg (by simp [hinit]), if_neg (by simp only [MAX_PCR_REGISTERS]; omega),
    if_neg (by rw [halloc]; simp)]

/-- C4 (amended): for every TPM state with the C struct's shapes (eight
32-byte registers, eight allocation flags, eight counters), every PCR
index i < 8 and every 32-byte measurement m, a successful
`tmp2_extend_pcr i m` sets register i to `sha3_256` of the previous
register contents concatenated with m, replaces the extend counter for
i by its successor modulo 2^32 (so increments it by exactly 1 whenever
it is below 2^32 - 1), and leaves every other register and counter as
well as the remaining fields unchanged; on an initialized TPM, extend
with 8 ≤ i returns the invalid-parameter error and leaves the whole
state unchanged. -/
theorem tmp2_extend_pcr_spec (st : TpmState) (i j : Nat) (m : List Nat) :
    (st.initialized = true → i < 8 → st.pcr_allocated.getD i false = true →
      st.pcr_values.length = 8 → st.extend_count.length = 8 →
      (st.pcr_values.getD i []).length = 32 → m.length = 32 →
      (tmp2_extend_pcr i (some m) st).1 = .PQC_SUCCESS ∧
      (tmp2_extend_pcr i (some m) st).2.pcr_values.getD i [] =
        sha3_256_digest (st.pcr_values.getD i [] ++ m) ∧
      (tmp2_extend_pcr i (some m) st).2.extend_count.getD i 0 =
        (st.extend_count.getD i 0 + 1) % 2 ^ 32 ∧
      (j ≠ i →
        (tmp2_extend_pcr i (some m) st).2.pcr_values.getD j [] = st.pcr_values.getD j [] ∧
        (tmp2_extend_pcr i (some m) st).2.extend_count.getD j 0 = st.extend_count.getD j 0) ∧
      (tmp2_extend_pcr i (some m) st).2.initialized = st.initialized ∧
      (tmp2_extend_pcr i (some m) st).2.pcr_allocated = st.pcr_allocated) ∧
    (st.initialized = true → 8 ≤ i →
      tmp2_extend_pcr i (some m) st = (.PQC_ERROR_INVALID_PARAMETER, st)) := by
  constructor
  · intro hinit hlt halloc hlenp hlenc hreg hm
    rw [tmp2_extend_pcr_success_eq st i m hinit hlt halloc]
    refine ⟨rfl, ?_, ?_, ?_, rfl, rfl⟩
    · show (st.pcr_values.set i _).getD i [] = _
      rw [List.getD_eq_getElem?_getD, List.getElem?_set_self (by omega), Option.getD_some,
        List.take_of_length_le (le_of_eq hreg), List.take_of_length_le (le_of_eq hm)]
    · show (st.extend_count.set i _).getD i 0 = _
      rw [List.getD_eq_getElem?_getD, List.getElem?_set_self (by omega), Option.getD_some]
    · intro hne
      constructor
      · show (st.pcr_values.set i _).getD j [] = _
        rw [List.getD_eq_getElem?_getD, List.getElem?_set_ne (Ne.symm hne),
          List.getD_eq_getElem?_getD]
      · show (st.extend_count.set i _).getD j 0 = _
        rw [List.getD_eq_getElem?_getD, List.getElem?_set_ne (Ne.symm hne),
          List.getD_eq_getElem?_getD]
  · intro hinit hge
    unfold tmp2_extend_pcr
    rw [if_neg (by simp [hinit]), if_pos (by simp only [MAX_PCR_REGISTERS]; omega)]

/-- C4 witness: the amended extend specification applied at a concrete
state, index and measurement, and the bounds clause at index 9. -/
theorem tmp2_extend_pcr_spec_witness :
    ((tmp2_extend_pcr 3 (some (List.replicate 32 1)) (tpm2_init
        { initialized := false, pcr_values := [], pcr_allocated := [], extend_count := [] })).1
      = .PQC_SUCCESS ∧
    (tmp2_extend_pcr 3 (some (List.replicate 32 1)) (tpm2_init
        { initialized := false, pcr_values := [], pcr_allocated := [], extend_count := [] })).2.pcr_values.getD 3 [] =
      sha3_256_digest ((tpm2_init
        { initialized := false, pcr_values := [], pcr_allocated := [], extend_count := [] }).pcr_values.getD 3 [] ++ List.replicate 32 1) ∧
    (tmp2_extend_pcr 3 (some (List.replicate 32 1)) (tpm2_init
        { initialized := false, pcr_values := [], pcr_allocated := [], extend_count := [] })).2.extend_count.getD 3 0 =
      ((tpm2_init
        { initialized := false, pcr_values := [], pcr_allocated := [], extend_count := [] }).extend_count.getD 3 0 + 1) % 2 ^ 32 ∧
    ((4 : Nat) ≠ 3 →
      (tmp2_extend_pcr 3 (some (List.replicate 32 1)) (tpm2_init
        { initialized := false, pcr_values := [], pcr_allocated := [], extend_count := [] })).2.pcr_values.getD 4 [] =
        (tpm2_init
        { initialized := false, pcr_values := [], pcr_allocated := [], extend_count := [] }).pcr_values.getD 4 [] ∧
      (tmp2_extend_pcr 3 (some (List.replicate 32 1)) (tpm2_init
        { initialized := false, pcr_values := [], pcr_allocated := [], extend_count := [] })).2.extend_count.getD 4 0 =
        (tpm2_init
        { initialized := false, pcr_values := [], pcr_allocated := [], extend_count := [] }).extend_count.getD 4 0) ∧
    (tmp2_extend_pcr 3 (some (List.replicate 32 1)) (tpm2_init
        { initialized := false, pcr_values := [], pcr_allocated := [], extend_count := [] })).2.initialized =
      (tpm2_init
        { initialized := false, pcr_values := [], pcr_allocated := [], extend_count := [] }).initialized ∧
    (tmp2_extend_pcr 3 (some (List.replicate 32 1)) (tpm2_init
        { initialized := false, pcr_values := [], pcr_allocated := [], extend_count := [] })).2.pcr_allocated =
      (tpm2_init
        { initialized := false, pcr_values := [], pcr_allocated := [], extend_count := [] }).pcr_allocated) ∧
    tmp2_extend_pcr 9 (some (List.replicate 32 1)) (tpm2_init
        { initialized := false, pcr_values := [], pcr_allocated := [], extend_count := [] }) =
      (.PQC_ERROR_INVALID_PARAMETER, tpm2_init
        { initialized := false, pcr_values := [], pcr_allocated := [], extend_count := [] }) := by
  constructor
  · exact (tmp2_extend_pcr_spec _ 3 4 _).1 (by decide) (by decide) (by decide)
      (by decide) (by decide) (by decide) (by decide)
  · exact (tmp2_extend_pcr_spec _ 9 0 _).2 (by decide) (by decide)

/-! ## Attestation report verification, embedded from
src/attestation/attestation_engine.c

`attestation_verify_report` checks the report version and measurement
count, hashes the report, calls `dilithium_verify` on the signature,
checks the timestamp against the verifier clock, and validates the
per-measurement PCR indices and types.  Cryptographic failures are
reported through the result structure while the function itself
returns PQC_SUCCESS.

The outcome of the `dilithium_verify` call on the report's signature,
hash and public key is passed in as the `dverify` argument, so the
theorems below hold for every behaviour of the callee.  The
`calculate_sha256` call cannot fail on the (non-null) report buffer, so
its result code is not modelled. -/

/-- ATTESTATION_REPORT_VERSION from attestation_engine.h. -/
def ATTESTATION_REPORT_VERSION : Nat := 1

/-- MAX_MEASUREMENTS_PER_REPORT from attestation_engine.h. -/
def MAX_MEASUREMENTS_PER_REPORT : Nat := 32

/-- `platform_measurement_t` from attestation_engine.h. -/
structure platform_measurement where
  pcr_index : Nat
  measurement_type : Nat
  measurement_value : List Nat
  timestamp : Nat
  measurement_size : Nat
  description : List Nat
  deriving DecidableEq, Repr

/-- `attestation_report_t` from attestation_engine.h. -/
structure attestation_report where
  device_id : List Nat
  timestamp : Nat
  report_version : Nat
  measurement_count : Nat
  pcr_values : List (List Nat)
  measurements : List platform_measurement
  signature_length : Nat
  signature : List Nat
  deriving DecidableEq, Repr

/-- `attestation_verification_result_t` from attestation_engine.h
(the `error_description` char buffer, never written on these paths, is
omitted). -/
structure attestation_verification_result where
  is_valid : Bool
  error_code : attestation_error
  trust_level : Nat
  device_id : List Nat
  timestamp : Nat
  policies_met : Nat
  deriving DecidableEq, Repr

/-- The result value produced by the function's initial
`memset(result_out, 0, ...)` together with `is_valid = false`. -/
def zeroVerificationResult : attestation_verification_result :=
  { is_valid := false
    error_code := .ATTESTATION_ERROR_NONE
    trust_level := 0
    device_id := List.replicate 32 0
    timestamp := 0
    policies_met := 0 }

/-- Subtraction as computed by the C expression
`current_time - report->timestamp`, where the `uint64_t` operand makes
the arithmetic unsigned 64-bit: the mathematical difference reduced
modulo 2^64. -/
def sub_u64 (a b : Nat) : Nat := (a % 2 ^ 64 + (2 ^ 64 - b % 2 ^ 64)) % 2 ^ 64

/-- The C cast `(int)` of an unsigned 64-bit value: truncation to the
low 32 bits reinterpreted as a two's-complement signed value (the
conversion is implementation-defined in C; this is what the targeted
implementations do). -/
def toInt32 (n : Nat) : Int :=
  if n % 2 ^ 32 < 2 ^ 31 then (n % 2 ^ 32 : Nat) else (n % 2 ^ 32 : Nat) - 2 ^ 32

/-- The C `abs` on a 32-bit int.  `abs(INT_MIN)` is undefined in C; the
two's-complement wraparound produced by the common implementations
(INT_MIN again) is used here. -/
def c_abs_int (i : Int) : Int :=
  if i = -(2 ^ 31) then -(2 ^ 31) else if i < 0 then -i else i

/-- The per-measurement validation loop of `attestation_verify_report`:
the first offending entry determines the error (PCR index checked
before measurement type, `MEASUREMENT_TYPE_MAX = 8`). -/
def check_measurements : List platform_measurement → Option attestation_error
  | [] => none
  | mr :: rest =>
    if MAX_PCR_REGISTERS ≤ mr.pcr_index then some .ATTESTATION_ERROR_INVALID_PCR
    else if 8 ≤ mr.measurement_type then some .ATTESTATION_ERROR_INVALID_MEASUREMENT
    else check_measurements rest

/-- `attestation_verify_report` from attestation_engine.c.  `dverify` is
the outcome of the embedded `dilithium_verify` call; `pk_nonnull` and
`out_nonnull` model the nullability of the other two pointer
arguments. -/
def attestation_verify_report (dverify : pqc_result) (current_time : Nat)
    (report : Option attestation_report) (pk_nonnull out_nonnull : Bool) :
    pqc_result × Option attestation_verification_result :=
  match report with
  | none => (.PQC_ERROR_INVALID_PARAMETER, none)
  | some r =>
    if pk_nonnull = false ∨ out_nonnull = false then (.PQC_ERROR_INVALID_PARAMETER, none)
    else if r.report_version ≠ ATTESTATION_REPORT_VERSION then
      (.PQC_SUCCESS, some { zeroVerificationResult with
        error_code := .ATTESTATION_ERROR_INVALID_FORMAT })
    else if MAX_MEASUREMENTS_PER_REPORT < r.measurement_count then
      (.PQC_SUCCESS, some { zeroVerificationResult with
        error_code := .ATTESTATION_ERROR_INVALID_FORMAT })
    else if dverify ≠ .PQC_SUCCESS then
      (.PQC_SUCCESS, some { zeroVerificationResult with
        error_code := .ATTESTATION_ERROR_SIGNATURE_INVALID })
    else if 300 < c_abs_int (toInt32 (sub_u64 current_time r.timestamp)) then
      (.PQC_SUCCESS, some { zeroVerificationResult with
        error_code := .ATTESTATION_ERROR_TIMESTAMP_INVALID })
    else
      match check_measurements (r.measurements.take r.measurement_count) with
      | some e => (.PQC_SUCCESS, some { zeroVerificationResult with error_code := e })
      | none =>
        (.PQC_SUCCESS, some
          { is_valid := true
            error_code := .ATTESTATION_ERROR_NONE
            trust_level := 3
            device_id := r.device_id
            timestamp := r.timestamp
            policies_met := 0 })

/-- A report that passes the format check, carries timestamp 0 and no
measurements. -/
def reportTs0 : attestation_report :=
  { device_id := List.replicate 32 0
    timestamp := 0
    report_version := 1
    measurement_count := 0
    pcr_values := List.replicate 8 (List.replicate 32 0)
    measurements := []
    signature_length := 4595
    signature := List.replicate 4595 0 }

/-- C7 counterexample: for a report that has passed the format and
signature checks, with report timestamp 0 and verifier clock 2^32, the
absolute clock difference is 2^32 > 300 seconds, yet the code accepts
the report as valid instead of rejecting it with TimestampInvalid: the
difference is truncated by the C cast `(int)` before `abs`, and
`(int)(2^32) = 0`. -/
theorem attestation_verify_timestamp_counterexample :
    300 < (((2 : Int) ^ 32) - (reportTs0.timestamp : Int)).natAbs ∧
    (attestation_verify_report .PQC_SUCCESS (2 ^ 32) (some reportTs0) true true) =
      (.PQC_SUCCESS, some
        { is_valid := true
          error_code := .ATTESTATION_ERROR_NONE
          trust_level := 3
          device_id := reportTs0.device_id
          timestamp := reportTs0.timestamp
          policies_met := 0 }) := by
  constructor
  · decide
  · rfl

/-- The measurement-validation loop only ever reports InvalidPcr or
InvalidMeasurement. -/
theorem check_measurements_codes (l : List platform_measurement) (e : attestation_error)
    (h : check_measurements l = some e) :
    e = .ATTESTATION_ERROR_INVALID_PCR ∨ e = .ATTESTATION_ERROR_INVALID_MEASUREMENT := by
  induction l with
  | nil => simp [check_measurements] at h
  | cons mr rest ih =>
    unfold check_measurements at h
    by_cases h1 : MAX_PCR_REGISTERS ≤ mr.pcr_index
    · rw [if_pos h1] at h
      exact Or.inl (Option.some.inj h).symm
    · rw [if_neg h1] at h
      by_cases h2 : 8 ≤ mr.measurement_type
      · rw [if_pos h2] at h
        exact Or.inr (Option.some.inj h).symm
      · rw [if_neg h2] at h
        exact ih h

/-- C7 (amended): for a report that has passed the format and signature
checks, `attestation_verify_report` sets the result to invalid with
error code TimestampInvalid exactly when the C expression
`abs((int)(current_time - report->timestamp)) > 300` holds, i.e. when
the absolute value of the 64-bit unsigned clock difference truncated to
a signed 32-bit integer exceeds 300; whenever the true absolute
difference is below 2^31 this agrees with the claimed
`|clock_now - timestamp| > 300`, but not in general.  Otherwise the
timestamp check passes and the only possible error codes are the
per-measurement ones. -/
theorem attestation_verify_timestamp_spec (now : Nat) (r : attestation_report) :
    r.report_version = 1 → r.measurement_count ≤ 32 →
    (((attestation_verify_report .PQC_SUCCESS now (some r) true true).2.getD
        zeroVerificationResult).error_code = .ATTESTATION_ERROR_TIMESTAMP_INVALID ↔
      300 < c_abs_int (toInt32 (sub_u64 now r.timestamp))) := by
  intro hver hcnt
  simp only [attestation_verify_report]
  rw [if_neg (by simp), if_neg (by simp [hver, ATTESTATION_REPORT_VERSION]),
    if_neg (by simp only [MAX_MEASUREMENTS_PER_REPORT]; omega), if_neg (by simp)]
  constructor
  · intro h
    by_contra hc
    rw [if_neg hc] at h
    rcases hm : check_measurements (r.measurements.take r.measurement_count) with _ | e
    · rw [hm] at h
      simp at h
    · rw [hm] at h
      rcases check_measurements_codes _ _ hm with h2 | h2 <;> subst h2 <;> simp at h
  · intro h
    rw [if_pos h]
    rfl

/-- C7 witness: the amended timestamp specification applied at clock
301 against a timestamp-0 report: the truncated difference is 301, so
the report is rejected with TimestampInvalid. -/
theorem attestation_verify_timestamp_spec_witness :
    reportTs0.report_version = 1 ∧ reportTs0.measurement_count ≤ 32 ∧
    (((attestation_verify_report .PQC_SUCCESS 301 (some reportTs0) true true).2.getD
        zeroVerificationResult).error_code = .ATTESTATION_ERROR_TIMESTAMP_INVALID ↔
      300 < c_abs_int (toInt32 (sub_u64 301 reportTs0.timestamp))) :=
  ⟨by decide, by decide,
    attestation_verify_timestamp_spec 301 reportTs0 (by decide) (by decide)⟩

/-- C8: for every report whose version differs from 1 or whose
measurement count exceeds 32, `attestation_verify_report` returns the
success status code while setting the result to invalid with error code
InvalidFormat — for every outcome of the signature verification, which
establishes that the format check precedes the signature check; and for
every well-formatted report whose signature does not verify, it returns
success while setting the result to invalid with SignatureInvalid. -/
theorem attestation_verify_error_reporting (dverify : pqc_result) (now : Nat)
    (r : attestation_report) :
    ((r.report_version ≠ 1 ∨ 32 < r.measurement_count) →
      attestation_verify_report dverify now (some r) true true =
        (.PQC_SUCCESS, some { zeroVerificationResult with
          error_code := .ATTESTATION_ERROR_INVALID_FORMAT })) ∧
    (r.report_version = 1 → r.measurement_count ≤ 32 → dverify ≠ .PQC_SUCCESS →
      attestation_verify_report dverify now (some r) true true =
        (.PQC_SUCCESS, some { zeroVerificationResult with
          error_code := .ATTESTATION_ERROR_SIGNATURE_INVALID })) := by
  constructor
  · intro hbad
    simp only [attestation_verify_report]
    rw [if_neg (by simp)]
    rcases hbad with hver | hcnt
    · rw [if_pos (by simpa [ATTESTATION_REPORT_VERSION] using hver)]
    · by_cases hv : r.report_version ≠ ATTESTATION_REPORT_VERSION
      · rw [if_pos hv]
      · rw [if_neg hv, if_pos (by simpa only [MAX_MEASUREMENTS_PER_REPORT] using hcnt)]
  · intro hver hcnt hsig
    simp only [attestation_verify_report]
    rw [if_neg (by simp), if_neg (by simp [hver, ATTESTATION_REPORT_VERSION]),
      if_neg (by simp only [MAX_MEASUREMENTS_PER_REPORT]; omega), if_pos hsig]

/-- A report with a bad version field. -/
def reportBadVersion : attestation_report :=
  { reportTs0 with report_version := 2 }

/-- C8 witness: a version-2 report is rejected as InvalidFormat even
with a failing verifier outcome, and a well-formed report whose
signature verification fails is rejected as SignatureInvalid, both with
success status. -/
theorem attestation_verify_error_reporting_witness :
    (attestation_verify_report .PQC_ERROR_INVALID_SIGNATURE 0 (some reportBadVersion) true true =
      (.PQC_SUCCESS, some { zeroVerificationResult with
        error_code := .ATTESTATION_ERROR_INVALID_FORMAT })) ∧
    (attestation_verify_report .PQC_ERROR_INVALID_SIGNATURE 0 (some reportTs0) true true =
      (.PQC_SUCCESS, some { zeroVerificationResult with
        error_code := .ATTESTATION_ERROR_SIGNATURE_INVALID })) :=
  ⟨(attestation_verify_error_reporting .PQC_ERROR_INVALID_SIGNATURE 0 reportBadVersion).1
      (Or.inl (by decide)),
    (attestation_verify_error_reporting .PQC_ERROR_INVALID_SIGNATURE 0 reportTs0).2
      (by decide) (by decide) (by decide)⟩

/-! ## Attestation engine initialization, embedded from
src/attestation/attestation_engine.c

The file's globals `g_attestation_ctx` and `g_attestation_initialized`
together with the TPM state of tmp2_interface.c form the engine state.
`attestation_init` returns early with success when the engine is
already initialized; otherwise it initializes the TPM, copies the
configuration, fills the device information, zeroes the PCR cache,
generates the device keypair when none is present, and resets the
measurement log.  The outcome of the embedded `dilithium_keypair` call
(which draws fresh randomness) is passed in as an argument. -/

/-- `attestation_config_t` from attestation_engine.h. -/
structure attestation_config where
  device_type : Nat
  device_serial : List Nat
  enable_continuous_monitoring : Bool
  attestation_interval_minutes : Nat
  require_tpm_presence : Bool
  enable_measurement_log : Bool
  max_log_entries : Nat
  deriving DecidableEq, Repr

/-- `device_info_t` from attestation_engine.h. -/
structure device_info where
  serial_number : List Nat
  device_type : Nat
  hardware_version : Nat
  firmware_version : Nat
  manufacturer_id : List Nat
  model_id : List Nat
  deriving DecidableEq, Repr

/-- `measurement_log_t` from attestation_engine.h. -/
structure measurement_log where
  count : Nat
  capacity : Nat
  measurements : List platform_measurement
  deriving DecidableEq, Repr

/-- A Dilithium keypair as a pair of packed byte buffers (the scheme's
internals are not needed by the initialization claims). -/
structure dilithium_keypair where
  pk : List Nat
  sk : List Nat
  deriving DecidableEq, Repr

/-- `attestation_context_t` from attestation_engine.h. -/
structure attestation_context where
  config : attestation_config
  device_info : device_info
  device_keypair : dilithium_keypair
  device_keypair_valid : Bool
  pcr_values : List (List Nat)
  pcr_valid : List Bool
  measurement_log : measurement_log
  last_attestation_time : Nat
  deriving DecidableEq, Repr

/-- The globals of attestation_engine.c plus the TPM state it drives. -/
structure attestation_engine_state where
  g_attestation_ctx : attestation_context
  g_attestation_initialized : Bool
  tpm : TpmState
  deriving DecidableEq, Repr

/-- `strlen` on a byte buffer: the number of bytes before the first
NUL. -/
def c_strlen (s : List Nat) : Nat := (s.takeWhile (· ≠ 0)).length

/-- `strncpy(dst, src, n)`: the first `n` bytes of `dst` become the
source bytes up to the first NUL, padded with NUL bytes; bytes of `dst`
beyond `n` are untouched. -/
def c_strncpy (dst src : List Nat) (n : Nat) : List Nat :=
  ((src.takeWhile (· ≠ 0)).take n
      ++ List.replicate (n - (src.takeWhile (· ≠ 0)).length) 0)
    ++ dst.drop n

/-- MAX_MEASUREMENT_LOG_ENTRIES from attestation_engine.h. -/
def MAX_MEASUREMENT_LOG_ENTRIES : Nat := 256

/-- `attestation_init` from attestation_engine.c.  `keypair_draw` is
the outcome of the embedded `dilithium_keypair` call (used only when no
valid keypair is present). -/
def attestation_init (config : Option attestation_config)
    (keypair_draw : pqc_result × dilithium_keypair)
    (st : attestation_engine_state) : pqc_result × attestation_engine_state :=
  match config with
  | none => (.PQC_ERROR_INVALID_PARAMETER, st)
  | some cfg =>
    if st.g_attestation_initialized then (.PQC_SUCCESS, st)
    else
      let st := { st with tpm := tpm2_init st.tpm }
      let ctx := st.g_attestation_ctx
      let ctx := { ctx with config := cfg }
      let ctx :=
        if 0 < c_strlen cfg.device_serial then
          { ctx with device_info := { ctx.device_info with
              serial_number := c_strncpy ctx.device_info.serial_number cfg.device_serial 63 } }
        else ctx
      let ctx := { ctx with device_info := { ctx.device_info with
        device_type := cfg.device_type
        hardware_version := 1
        firmware_version := 1 } }
      let ctx := { ctx with
        pcr_values := List.replicate MAX_PCR_REGISTERS (List.replicate 32 0)
        pcr_valid := List.replicate MAX_PCR_REGISTERS false }
      if ctx.device_keypair_valid = false then
        if keypair_draw.1 ≠ .PQC_SUCCESS then
          (keypair_draw.1, { st with g_attestation_ctx := ctx })
        else
          let ctx := { ctx with device_keypair := keypair_draw.2, device_keypair_valid := true }
          let ctx := { ctx with measurement_log := { ctx.measurement_log with
            count := 0, capacity := MAX_MEASUREMENT_LOG_ENTRIES } }
          (.PQC_SUCCESS, { st with g_attestation_ctx := ctx, g_attestation_initialized := true })
      else
        let ctx := { ctx with measurement_log := { ctx.measurement_log with
          count := 0, capacity := MAX_MEASUREMENT_LOG_ENTRIES } }
        (.PQC_SUCCESS, { st with g_attestation_ctx := ctx, g_attestation_initialized := true })

/-- C9: once the engine is initialized, `attestation_init` is
idempotent: a second call with any (non-null) configuration returns
success immediately and leaves the entire engine state — context,
flag and TPM — unchanged, for every outcome of the keypair
generator (which is in fact never consulted). -/
theorem attestation_init_idempotent (cfg : attestation_config)
    (keypair_draw : pqc_result × dilithium_keypair) (st : attestation_engine_state) :
    st.g_attestation_initialized = true →
    attestation_init (some cfg) keypair_draw st = (.PQC_SUCCESS, st) := by
  intro h
  simp only [attestation_init, h, if_true]

/-- An engine state marked initialized, as left by a successful first
`attestation_init`. -/
def engineStateReady : attestation_engine_state :=
  { g_attestation_ctx :=
      { config :=
          { device_type := 1
            device_serial := List.replicate 64 0
            enable_continuous_monitoring := false
            attestation_interval_minutes := 60
            require_tpm_presence := true
            enable_measurement_log := true
            max_log_entries := 256 }
        device_info :=
          { serial_number := List.replicate 64 0
            device_type := 1
            hardware_version := 1
            firmware_version := 1
            manufacturer_id := List.replicate 16 0
            model_id := List.replicate 16 0 }
        device_keypair := { pk := [1], sk := [2] }
        device_keypair_valid := true
        pcr_values := List.replicate 8 (List.replicate 32 0)
        pcr_valid := List.replicate 8 false
        measurement_log := { count := 0, capacity := 256, measurements := [] }
        last_attestation_time := 0 }
    g_attestation_initialized := true
    tpm := tpm2_init
      { initialized := false, pcr_values := [], pcr_allocated := [], extend_count := [] } }

/-- C9 witness: a second `attestation_init` on an initialized engine
state, with a fresh configuration and a keypair draw that would fail,
returns success and the unchanged state. -/
theorem attestation_init_idempotent_witness :
    attestation_init (some
        { device_type := 2
          device_serial := 0x41 :: List.replicate 63 0
          enable_continuous_monitoring := true
          attestation_interval_minutes := 5
          require_tpm_presence := false
          enable_measurement_log := false
          max_log_entries := 16 })
      (.PQC_ERROR_RANDOM_GENERATION, { pk := [], sk := [] }) engineStateReady =
      (.PQC_SUCCESS, engineStateReady) :=
  attestation_init_idempotent _ _ engineStateReady (by decide)

/-! ## Null-pointer guards of the public crypto operations

Each operation below is embedded with its null-pointer guard from the
source and a `body` parameter standing for the remainder of the C
function on non-null arguments (kyber.c and dilithium.c; the body of
`dilithium_sign` is analysed separately as `dilithium_sign_loop`).
Nullable pointer arguments are Option values; on the guard path the
operation returns PQC_ERROR_INVALID_PARAMETER and every output buffer
keeps its previous contents.  The theorems quantify over every possible
body, so they hold in particular for the concrete C bodies. -/

/-- `kyber_public_key_t` from kyber.h. -/
structure kyber_public_key where
  seed : List Nat
  t : List Nat
  deriving DecidableEq, Repr

/-- `kyber_secret_key_t` from kyber.h. -/
structure kyber_secret_key where
  s : List Nat
  pk : kyber_public_key
  h : List Nat
  z : List Nat
  deriving DecidableEq, Repr

/-- `kyber_ciphertext_t` from kyber.h. -/
structure kyber_ciphertext where
  u : List Nat
  v : List Nat
  deriving DecidableEq, Repr

/-- `dilithium_secret_key_t` (its header is not in the sources; the
fields are those dilithium.c reads and writes: rho, key, tr, s1, s2,
t0). -/
structure dilithium_secret_key where
  rho : List Nat
  key : List Nat
  tr : List Nat
  s1 : List Nat
  s2 : List Nat
  t0 : List Nat
  deriving DecidableEq, Repr

/-- `kyber_keypair` from kyber.c: null guard on both key pointers,
then the keypair-generation body. -/
def kyber_keypair
    (body : kyber_public_key → kyber_secret_key → pqc_result × kyber_public_key × kyber_secret_key)
    (pk : Option kyber_public_key) (sk : Option kyber_secret_key) :
    pqc_result × Option kyber_public_key × Option kyber_secret_key :=
  match pk, sk with
  | some pkv, some skv =>
    let r := body pkv skv
    (r.1, some r.2.1, some r.2.2)
  | _, _ => (.PQC_ERROR_INVALID_PARAMETER, pk, sk)

/-- `kyber_decapsulate` from kyber.c: null guard on the shared-secret,
ciphertext and secret-key pointers, then the decapsulation body. -/
def kyber_decapsulate
    (body : List Nat → kyber_ciphertext → kyber_secret_key → pqc_result × List Nat)
    (shared_secret : Option (List Nat)) (ct : Option kyber_ciphertext)
    (sk : Option kyber_secret_key) : pqc_result × Option (List Nat) :=
  match shared_secret, ct, sk with
  | some ssv, some ctv, some skv =>
    let r := body ssv ctv skv
    (r.1, some r.2)
  | _, _, _ => (.PQC_ERROR_INVALID_PARAMETER, shared_secret)

/-- `dilithium_sign` from dilithium.c: null guard on the signature,
signature-length, message and secret-key pointers, then the signing
body. -/
def dilithium_sign
    (body : List Nat → Nat → List Nat → dilithium_secret_key → pqc_result × List Nat × Nat)
    (signature : Option (List Nat)) (siglen : Option Nat)
    (message : Option (List Nat)) (sk : Option dilithium_secret_key) :
    pqc_result × Option (List Nat) × Option Nat :=
  match signature, siglen, message, sk with
  | some sigv, some slv, some msgv, some skv =>
    let r := body sigv slv msgv skv
    (r.1, some r.2.1, some r.2.2)
  | _, _, _, _ => (.PQC_ERROR_INVALID_PARAMETER, signature, siglen)

/-- C10: for each of `kyber_keypair`, `kyber_decapsulate`,
`dilithium_sign` and `sha3_256`, whenever any required pointer argument
is null the operation returns PQC_ERROR_INVALID_PARAMETER and every
output buffer keeps its previous contents — for every possible body of
the operation, so no randomness is drawn and no other state is
touched. -/
theorem crypto_null_pointer_guards
    (kkb : kyber_public_key → kyber_secret_key → pqc_result × kyber_public_key × kyber_secret_key)
    (kdb : List Nat → kyber_ciphertext → kyber_secret_key → pqc_result × List Nat)
    (dsb : List Nat → Nat → List Nat → dilithium_secret_key → pqc_result × List Nat × Nat)
    (pk : Option kyber_public_key) (sk : Option kyber_secret_key)
    (ss : Option (List Nat)) (ct : Option kyber_ciphertext) (ksk : Option kyber_secret_key)
    (sig : Option (List Nat)) (siglen : Option Nat) (msg : Option (List Nat))
    (dsk : Option dilithium_secret_key)
    (hash : Option (List Nat)) (input : Option (List Nat)) :
    ((pk = none ∨ sk = none) →
      kyber_keypair kkb pk sk = (.PQC_ERROR_INVALID_PARAMETER, pk, sk)) ∧
    ((ss = none ∨ ct = none ∨ ksk = none) →
      kyber_decapsulate kdb ss ct ksk = (.PQC_ERROR_INVALID_PARAMETER, ss)) ∧
    ((sig = none ∨ siglen = none ∨ msg = none ∨ dsk = none) →
      dilithium_sign dsb sig siglen msg dsk = (.PQC_ERROR_INVALID_PARAMETER, sig, siglen)) ∧
    ((hash = none ∨ input = none) →
      sha3_256 hash input = (.PQC_ERROR_INVALID_PARAMETER, hash)) := by
  refine ⟨?_, ?_, ?_, ?_⟩
  · intro h
    rcases pk with _ | pkv <;> rcases sk with _ | skv <;> simp_all [kyber_keypair]
  · intro h
    rcases ss with _ | ssv <;> rcases ct with _ | ctv <;> rcases ksk with _ | kskv <;>
      simp_all [kyber_decapsulate]
  · intro h
    rcases sig with _ | sigv <;> rcases siglen with _ | slv <;> rcases msg with _ | msgv <;>
      rcases dsk with _ | dskv <;> simp_all [dilithium_sign]
  · intro h
    rcases hash with _ | hv <;> rcases input with _ | iv <;>
      simp_all [sha3_256, sha3_256_enhanced]

/-- C10 witness: the guards applied with every pointer null. -/
theorem crypto_null_pointer_guards_witness :
    (kyber_keypair (fun pkv skv => (.PQC_SUCCESS, pkv, skv)) none none =
      (.PQC_ERROR_INVALID_PARAMETER, none, none)) ∧
    (kyber_decapsulate (fun ssv _ _ => (.PQC_SUCCESS, ssv)) none none none =
      (.PQC_ERROR_INVALID_PARAMETER, none)) ∧
    (dilithium_sign (fun sigv slv _ _ => (.PQC_SUCCESS, sigv, slv)) none none none none =
      (.PQC_ERROR_INVALID_PARAMETER, none, none)) ∧
    (sha3_256 none none = (.PQC_ERROR_INVALID_PARAMETER, none)) := by
  have h := crypto_null_pointer_guards
    (fun pkv skv => (.PQC_SUCCESS, pkv, skv))
    (fun ssv _ _ => (.PQC_SUCCESS, ssv))
    (fun sigv slv _ _ => (.PQC_SUCCESS, sigv, slv))
    none none none none none none none none none none none
  exact ⟨h.1 (Or.inl rfl), h.2.1 (Or.inl rfl), h.2.2.1 (Or.inl rfl), h.2.2.2 (Or.inl rfl)⟩

/-! ## The Dilithium signing loop, embedded from src/crypto/dilithium.c

The rejection test in the signing loop is
`z[i][j] >= DILITHIUM_GAMMA1 - DILITHIUM_BETA ||
 z[i][j] <= -(DILITHIUM_GAMMA1 - DILITHIUM_BETA)`,
where `z[i][j]` has type `uint32_t`.  By the usual C arithmetic
conversions the int operands are converted to unsigned, so the second
comparison is against `2^32 - (GAMMA1 - BETA)`.  The disjunction is
true for every 32-bit value, so every candidate is rejected, `valid`
never stays 1, and the `while (1)` loop never reaches the packing code:
`dilithium_sign` never produces a signature.

The loop is modelled with the candidate `z` coefficients of each
attempt supplied by an oracle `zcand` (they arise from SHAKE expansion
and NTT arithmetic the rejection test makes irrelevant), the hint-count
of each attempt by an oracle `hint_count`, and fuel bounding the number
of iterations observed: for every oracle and every amount of fuel the
loop yields no signature. -/

/-- DILITHIUM_GAMMA1 from dilithium.c. -/
def DILITHIUM_GAMMA1 : Nat := 2 ^ 19

/-- DILITHIUM_BETA from dilithium.c. -/
def DILITHIUM_BETA : Nat := 196

/-- DILITHIUM_OMEGA from dilithium.c. -/
def DILITHIUM_OMEGA : Nat := 75

/-- DILITHIUM_L from dilithium.c. -/
def DILITHIUM_L : Nat := 7

/-- DILITHIUM_N from dilithium.c. -/
def DILITHIUM_N : Nat := 256

/-- The signing loop's per-coefficient rejection test, with the C
unsigned conversions made explicit: `z` is the `uint32_t` value of a
candidate coefficient. -/
def dilithium_z_rejected (z : Nat) : Bool :=
  decide (DILITHIUM_GAMMA1 - DILITHIUM_BETA ≤ z) ||
    decide (z ≤ 2 ^ 32 - (DILITHIUM_GAMMA1 - DILITHIUM_BETA))

/-- An attempt of the signing loop passes the range check only if none
of its `DILITHIUM_L * DILITHIUM_N` coefficients is rejected (the C
breaks at the first rejected coefficient). -/
def dilithium_attempt_accepted (z : Nat → Nat) : Bool :=
  decide (∀ k, k < DILITHIUM_L * DILITHIUM_N → dilithium_z_rejected (z k) = false)

/-- The `while (1)` signing loop of `dilithium_sign`: attempt `nonce`
samples candidate coefficients `zcand nonce`, restarts on the range
check or on more than DILITHIUM_OMEGA hints, and otherwise returns the
packed signature data. -/
def dilithium_sign_loop (zcand : Nat → Nat → Nat) (hint_count : Nat → Nat) :
    Nat → Nat → Option (Nat → Nat)
  | _nonce, 0 => none
  | nonce, fuel + 1 =>
    if dilithium_attempt_accepted (zcand nonce) then
      if hint_count nonce ≤ DILITHIUM_OMEGA then some (zcand nonce)
      else dilithium_sign_loop zcand hint_count (nonce + 1) fuel
    else dilithium_sign_loop zcand hint_count (nonce + 1) fuel

/-- The rejection test holds for every coefficient value: values below
GAMMA1 - BETA satisfy the converted second comparison, all others the
first. -/
theorem dilithium_z_rejected_always (z : Nat) : dilithium_z_rejected z = true := by
  unfold dilithium_z_rejected
  rw [Bool.or_eq_true, decide_eq_true_eq, decide_eq_true_eq]
  have hc1 : DILITHIUM_GAMMA1 - DILITHIUM_BETA = 524092 := by decide
  have hc2 : 2 ^ 32 - (DILITHIUM_GAMMA1 - DILITHIUM_BETA) = 4294443204 := by decide
  rw [hc2, hc1]
  omega

/-- No attempt ever passes the range check: its first coefficient is
already rejected. -/
theorem dilithium_attempt_accepted_false (z : Nat → Nat) :
    dilithium_attempt_accepted z = false := by
  unfold dilithium_attempt_accepted
  rw [decide_eq_false_iff_not]
  intro h
  have h0 := h 0 (by decide)
  rw [dilithium_z_rejected_always (z 0)] at h0
  exact absurd h0 (by decide)

/-- C1: the claim that verifying the signature produced by
`dilithium_sign` accepts is FALSE because `dilithium_sign` never
produces a signature at all: its range check on the candidate `z`
coefficients is satisfied by every `uint32_t` value, so for every
sequence of sampled candidates, every sequence of hint counts, every
starting nonce and every number of iterations the signing loop never
returns. -/
theorem dilithium_sign_loop_never_returns (zcand : Nat → Nat → Nat)
    (hint_count : Nat → Nat) (nonce fuel : Nat) :
    dilithium_sign_loop zcand hint_count nonce fuel = none := by
  induction fuel generalizing nonce with
  | zero => rfl
  | succ n ih =>
    show (if dilithium_attempt_accepted (zcand nonce) then
        if hint_count nonce ≤ DILITHIUM_OMEGA then some (zcand nonce)
        else dilithium_sign_loop zcand hint_count (nonce + 1) n
      else dilithium_sign_loop zcand hint_count (nonce + 1) n) = none
    rw [dilithium_attempt_accepted_false (zcand nonce), if_neg (by simp)]
    exact ih (nonce + 1)

/-! ## Kyber decapsulation buffer sizes, from src/crypto/kyber.h and
src/crypto/kyber.c

`kyber_decapsulate` performs, on its implicit-rejection path,
`memcpy(hash_input + 32, ct, sizeof(kyber_ciphertext_t))` followed by
`sha3_256(K, hash_input, 32 + sizeof(kyber_ciphertext_t))` on the
local array `uint8_t hash_input[64]`. -/

/-- Size in bytes of the `u` member of `kyber_ciphertext_t`
(`4 * 256 * 11 / 8` in kyber.h). -/
def KYBER_CT_U_BYTES : Nat := 4 * 256 * 11 / 8

/-- Size in bytes of the `v` member of `kyber_ciphertext_t`
(`256 * 5 / 8` in kyber.h). -/
def KYBER_CT_V_BYTES : Nat := 256 * 5 / 8

/-- `sizeof(kyber_ciphertext_t)`. -/
def KYBER_CIPHERTEXTBYTES : Nat := KYBER_CT_U_BYTES + KYBER_CT_V_BYTES

/-- Size of the local `hash_input` array declared in
`kyber_decapsulate`. -/
def kyber_decap_hash_input_bytes : Nat := 64

/-- C6: the claim that `kyber_decapsulate` always succeeds and is
deterministic is FALSE in the source: on the implicit-rejection path it
writes `32 + sizeof(kyber_ciphertext_t)` = 1600 bytes through a
64-byte stack array, which is undefined behaviour, as this theorem's
size inequality shows; moreover the path taken depends on a
re-encapsulation under fresh randomness drawn inside the call. -/
theorem kyber_decapsulate_reject_hash_overflow :
    kyber_decap_hash_input_bytes < 32 + KYBER_CIPHERTEXTBYTES ∧
    32 + KYBER_CIPHERTEXTBYTES = 1600 := by
  constructor <;> decide

/-- Shared-secret derivation of `kyber_encapsulate` (kyber.c lines
416 to 419): the code copies the 32 random message bytes `m` into
`hash_input` and hashes exactly those 32 bytes, so the shared secret is
`sha3_256(m)` — not the `sha3_256(Kbar || sha3_256(ct))` of the
specification (the 64-byte `Kbar || r` buffer computed earlier as
`sha3_512(m || sha3_256(pk))` is used only for noise sampling, and the
ciphertext does not enter the derivation at all). -/
def kyber_encapsulate_shared_secret (m : List Nat) : List Nat :=
  sha3_256_digest (m.take 32)

end PQCAttestor
